import Mathlib

/-!
Verification of the waterbutler stream-wrapper algebra and the osfstorage
content-addressable commit protocol, as a shallow embedding of the Python
sources in `src/waterbutler/`.

Byte strings are `List Nat` (each entry one byte value).  Python byte-string
slicing is modelled by `pySliceTo` / `pySliceFrom` with Python's negative-index
and clamping semantics.  Each Python stream class becomes a structure holding
its instance attributes, and each `read` becomes a state-passing function.
Calls that raise a Python exception return `Except PyError`.  Loops that the
source expresses with `while` are modelled with an explicit step function plus
a fuel-indexed runner, so that divergence is expressible as `none` for every
fuel and as a reachable fixed point of the step function.
-/

namespace Waterbutler

abbrev Byte := Nat

def asciiBytes (s : String) : List Byte := s.toList.map Char.toNat

/-- Clamp a Python slice endpoint `i` for a sequence of length `len`:
negative indices count from the end (floored at 0), positive ones are capped
at `len`. -/
def pyIdx (len : Nat) (i : Int) : Nat :=
  if i < 0 then ((len : Int) + i).toNat else min i.toNat len

/-- Python `data[0:j]`. -/
def pySliceTo (l : List Byte) (j : Int) : List Byte :=
  l.take (pyIdx l.length j)

/-- Python `data[i:]`. -/
def pySliceFrom (l : List Byte) (i : Int) : List Byte :=
  l.drop (pyIdx l.length i)

/-- Python exceptions raised by the modelled code paths. -/
inductive PyError where
  | attributeError
  | nameError
  | typeError
deriving DecidableEq

instance {ε α : Type} [DecidableEq ε] [DecidableEq α] : DecidableEq (Except ε α) :=
  fun a b =>
    match a, b with
    | .ok x, .ok y =>
      if h : x = y then .isTrue (by rw [h]) else .isFalse (by simp [h])
    | .error x, .error y =>
      if h : x = y then .isTrue (by rw [h]) else .isFalse (by simp [h])
    | .ok _, .error _ => .isFalse (by simp)
    | .error _, .ok _ => .isFalse (by simp)

/-! ## StringStreamWrapper (src/waterbutler/core/stream_wrappers.py:159-193)

Instance attributes: `_data` (the remaining bytes), `_size` (fixed at
construction, never updated by reads), `_at_eof`. -/

structure StringStreamWrapper where
  data : List Byte
  sizeAttr : Nat
  atEof : Bool
deriving DecidableEq

def StringStreamWrapper.ofAscii (s : String) : StringStreamWrapper :=
  { data := asciiBytes s, sizeAttr := (asciiBytes s).length, atEof := false }

/-- `StringStreamWrapper.read` (lines 182-193), verbatim from the source:
if `n == -1` it is replaced by `self.size` (the construction-time `_size`);
the returned chunk is `self._data[0:n - 1]` while the buffer advances to
`self._data[n:]`; `_at_eof` is set once the buffer empties. -/
def StringStreamWrapper.read (s : StringStreamWrapper) (n : Int) :
    List Byte × StringStreamWrapper :=
  let n' : Int := if n = -1 then (s.sizeAttr : Int) else n
  let chunk := pySliceTo s.data (n' - 1)
  let data' := pySliceFrom s.data n'
  (chunk, { s with data := data', atEof := if data'.isEmpty then true else s.atEof })

/-! ## HashStreamWriter and DigestStreamWrapper
(src/waterbutler/core/stream_wrappers.py:47-63) -/

/-- Modelled from the spec: `HashStreamWriter` lives in
`waterbutler/core/streams/metadata.py`, which is not part of the sources.
Per the spec's HashAccumulator (§3) it keeps the running state of one digest
function, mutated once per chunk in strict read order; its finalized digest
is a pure function of the concatenation of all bytes written.  We therefore
represent the running state as the list of bytes written so far. -/
structure HashStreamWriter where
  written : List Byte
deriving DecidableEq

def HashStreamWriter.write (w : HashStreamWriter) (data : List Byte) :
    HashStreamWriter :=
  { written := w.written ++ data }

structure DigestStreamWrapper where
  readable : StringStreamWrapper
  writers : List (String × HashStreamWriter)
  atEof : Bool
deriving DecidableEq

/-- `DigestStreamWrapper.read` (lines 58-63).  The body's first statement is
`data = await super()._readable.read(size)`: `_readable` is an instance
attribute, and a `super()` proxy resolves attributes only through the class
hierarchy (`SimpleStreamWrapper`, `object`), where no `_readable` exists.
Every call therefore raises `AttributeError` before any byte is read and
before any writer is fed. -/
def DigestStreamWrapper.read (s : DigestStreamWrapper) (size : Int) :
    Except PyError (List Byte × DigestStreamWrapper) :=
  .error .attributeError

/-! ## EmptyStreamWrapper (src/waterbutler/core/stream_wrappers.py:196-213) -/

structure EmptyStreamWrapper where
  atEof : Bool
deriving DecidableEq

/-- `EmptyStreamWrapper.read`: sets `_at_eof` and returns an empty result. -/
def EmptyStreamWrapper.read (s : EmptyStreamWrapper) (n : Int) :
    List Byte × EmptyStreamWrapper :=
  ([], { atEof := true })

/-! ## MultiStreamWrapper (src/waterbutler/core/stream_wrappers.py:66-107)

Members are the repository's in-memory leaf streams (`StringStreamWrapper`),
the member type every factory in this file feeds to it.  Attributes: `_size`
(sum of member sizes at construction), `_readables` (the not-yet-current
members), `_current_readable`, and the inherited `_at_eof` flag, which no
method of the class ever sets. -/

structure MultiStreamWrapper where
  sizeAttr : Nat
  readables : List StringStreamWrapper
  current : Option StringStreamWrapper
  atEof : Bool
deriving DecidableEq

/-- `_cycle` (lines 85-89): pop the next member into `_current_readable`;
on `IndexError` (empty list) it only `pass`es, leaving `_current_readable`
unchanged — in particular an exhausted member stays current forever. -/
def MultiStreamWrapper.cycle (s : MultiStreamWrapper) : MultiStreamWrapper :=
  match s.readables with
  | [] => s
  | r :: rest => { s with current := some r, readables := rest }

/-- `__init__` (lines 72-83): `_size` is the sum of member sizes,
`_current_readable` starts `None` and `_cycle()` is called once. -/
def MultiStreamWrapper.make (members : List StringStreamWrapper) :
    MultiStreamWrapper :=
  MultiStreamWrapper.cycle
    { sizeAttr := (members.map (·.sizeAttr)).sum
      readables := members
      current := none
      atEof := false }

/-- State of the `while` loop inside `MultiStreamWrapper.read`:
the stream object plus the `chunk` accumulated so far in this call. -/
structure MultiReadState where
  s : MultiStreamWrapper
  chunk : List Byte
deriving DecidableEq

/-- The loop guard of `read` (line 98):
`self._current_readable and (len(chunk) < n or n == -1)`. -/
def multiLoopCond (st : MultiReadState) (n : Int) : Bool :=
  st.s.current.isSome && (((st.chunk.length : Int) < n) || n == -1)

/-- One iteration of the loop body (lines 99-105): read `-1` or
`n - len(chunk)` from the current member, append it to `chunk`, and `_cycle()`
if the member reports eof. -/
def multiLoopBody (st : MultiReadState) (n : Int) : MultiReadState :=
  match st.s.current with
  | none => st
  | some cur =>
    let req : Int := if n == -1 then -1 else n - st.chunk.length
    let res := cur.read req
    let s' := { st.s with current := some res.2 }
    let s'' := if res.2.atEof then s'.cycle else s'
    { s := s'', chunk := st.chunk ++ res.1 }

/-- One guarded step of the loop: run the body if the guard holds, else stay. -/
def multiStep (n : Int) (st : MultiReadState) : MultiReadState :=
  if multiLoopCond st n then multiLoopBody st n else st

/-- Fuel-indexed run of the whole `read` loop; `none` means the fuel was
exhausted with the guard still true (the call has not returned). -/
def multiReadLoop : Nat → Int → MultiReadState → Option (List Byte × MultiStreamWrapper)
  | 0, _, _ => none
  | fuel + 1, n, st =>
    if multiLoopCond st n then multiReadLoop fuel n (multiLoopBody st n)
    else some (st.chunk, st.s)

/-- `MultiStreamWrapper.read` (lines 95-107) with explicit fuel. -/
def MultiStreamWrapper.read (fuel : Nat) (s : MultiStreamWrapper) (n : Int) :
    Option (List Byte × MultiStreamWrapper) :=
  multiReadLoop fuel n { s := s, chunk := [] }

/-! ## CutoffStream (src/waterbutler/core/stream_wrappers.py:110-156)

Attributes: `_readable`, `_cutoff`, `_thus_far`, and
`_size = min(cutoff, readable.size)` fixed at construction. -/

structure CutoffStream where
  readable : StringStreamWrapper
  cutoff : Int
  thusFar : Nat
  sizeAttr : Int
deriving DecidableEq

def CutoffStream.make (r : StringStreamWrapper) (cutoff : Int) : CutoffStream :=
  { readable := r, cutoff := cutoff, thusFar := 0
    sizeAttr := min cutoff (r.sizeAttr : Int) }

/-- `CutoffStream.read` (lines 139-156).  For `n < 0` it returns
`self._readable.read(self._cutoff)` without touching `_thus_far`.  For
`n >= 0` it first clamps `n` to `cutoff - thus_far` and then enters
`while self.stream and (len(chunk) < n)`: the class has no attribute
`stream` (the wrapped stream is `_readable`), so evaluating the guard raises
`AttributeError` before any iteration. -/
def CutoffStream.read (s : CutoffStream) (n : Int) :
    Except PyError (List Byte × CutoffStream) :=
  if n < 0 then
    .ok ((s.readable.read s.cutoff).1,
         { s with readable := (s.readable.read s.cutoff).2 })
  else
    .error .attributeError

/-! ## Base64EncodeStream (src/waterbutler/core/stream_wrappers.py:308-351) -/

def b64tbl (i : Nat) : Byte :=
  (asciiBytes "ABCDEFGHIJKLMNOPQRSTUVWXYZabcdefghijklmnopqrstuvwxyz0123456789+/").getD i 0

/-- Standard base64 of a byte list (the behaviour of `base64.b64encode`):
3-byte groups become 4 alphabet bytes, with `=` (byte 61) padding. -/
def b64encode : List Byte → List Byte
  | a :: b :: c :: rest =>
    b64tbl (a / 4) :: b64tbl ((a % 4) * 16 + b / 16) ::
      b64tbl ((b % 16) * 4 + c / 64) :: b64tbl (c % 64) :: b64encode rest
  | [a, b] => [b64tbl (a / 4), b64tbl ((a % 4) * 16 + b / 16), b64tbl ((b % 16) * 4), 61]
  | [a] => [b64tbl (a / 4), b64tbl ((a % 4) * 16), 61, 61]
  | [] => []

structure Base64EncodeStream where
  extra : List Byte
  stream : StringStreamWrapper
deriving DecidableEq

def Base64EncodeStream.make (s : StringStreamWrapper) : Base64EncodeStream :=
  { extra := [], stream := s }

/-- `at_eof` (lines 350-351): `len(self.extra) == 0 and self.stream.at_eof()`. -/
def Base64EncodeStream.atEof (s : Base64EncodeStream) : Bool :=
  s.extra.isEmpty && s.stream.atEof

/-- `Base64EncodeStream.read` (lines 331-348).  For `n < 0` the code runs
`await super().read(n)`: `super().read` resolves to the abstract `read`
property of `SimpleStreamWrapper`, whose property access yields a coroutine
object, and calling that object raises `TypeError`.  For `n >= 0` it rounds
`n` up to a multiple of 3, reads that many bytes from the wrapped stream,
prepends the carried `extra`, and keeps any output beyond the original `n`
as the new carry. -/
def Base64EncodeStream.read (s : Base64EncodeStream) (n : Int) :
    Except PyError (List Byte × Base64EncodeStream) :=
  if n < 0 then
    .error .typeError
  else
    let nog := n
    let padding := n % 3
    let n' := if padding ≠ 0 then n + (3 - padding) else n
    let res := s.stream.read n'
    let chunk := s.extra ++ b64encode res.1
    if (chunk.length : Int) ≤ nog then
      .ok (chunk, { extra := [], stream := res.2 })
    else
      .ok (chunk.take nog.toNat, { extra := chunk.drop nog.toNat, stream := res.2 })

/-! ## RequestStreamReader

Two versions exist in the sources.  The rewritten one in
`src/waterbutler/core/stream_wrappers.py:266-306` and the original `_read` in
`src/waterbutler/core/streams/http.py:205-225`. -/

structure RequestStreamReader where
  innerAtEof : Bool
deriving DecidableEq

/-- `RequestStreamReader.read` (stream_wrappers.py:282-303).  The body's first
statement calls `logger.info(...)`, but `stream_wrappers.py` never imports
`logging` nor defines `logger`, so every call raises `NameError` before the
eof check is reached.  (The `except asyncio.IncompleteReadError` clause is
equally unreachable as written: `asyncio` is not imported in this module
either, and the guarded call is `inner.read`, which does not raise
`IncompleteReadError`.) -/
def RequestStreamReader.read (s : RequestStreamReader) (size : Int) :
    Except PyError (List Byte) :=
  .error .nameError

/-- Observable behaviour of the inner `asyncio.StreamReader` for one call:
what `inner.read(size)` would return, and whether `inner.readexactly(size)`
returns in full or raises `IncompleteReadError` carrying partial bytes. -/
inductive ReadexactlyResult where
  | full (bs : List Byte)
  | incomplete (partialBytes : List Byte)
deriving DecidableEq

structure HttpInner where
  atEofFlag : Bool
  readBytes : List Byte
  readexactlyRes : ReadexactlyResult
deriving DecidableEq

/-- `RequestStreamReader._read` (streams/http.py:205-225): if the inner reader
is at eof, return `b''` without reading it; for a negative size, delegate to
`inner.read`; otherwise call `inner.readexactly(size)` and, on
`IncompleteReadError`, return the exception's partial bytes.  The second
component records whether the inner reader was read from. -/
def httpRequestRead (inner : HttpInner) (size : Int) : List Byte × Bool :=
  if inner.atEofFlag then ([], false)
  else if size < 0 then (inner.readBytes, true)
  else
    match inner.readexactlyRes with
    | .full bs => (bs, true)
    | .incomplete pb => (pb, true)

/-! ## Storage backend collaborator and the commit protocol's dedup/finalize
branch (src/waterbutler/providers/osfstorage/provider.py:540-588)

The inner storage provider is an external collaborator (spec §6): an object
store addressed by opaque path, offering `metadata` (returning the stored
object or a `MetadataError` whose code is 404 for an absent path), `move`
and `delete`.  We model its state as an association list from path to stored
bytes; `metaFailures` injects the "any other lookup failure" case the spec's
§6 allows. -/

def lookupStr {α : Type} : List (String × α) → String → Option α
  | [], _ => none
  | (k, v) :: rest, p => if k = p then some v else lookupStr rest p

def removeKey {α : Type} : List (String × α) → String → List (String × α)
  | [], _ => []
  | (k, v) :: rest, p =>
    if k = p then removeKey rest p else (k, v) :: removeKey rest p

structure Backend where
  objects : List (String × List Byte)
  metaFailures : List (String × Nat)
deriving DecidableEq

def Backend.find (b : Backend) (p : String) : Option (List Byte) :=
  lookupStr b.objects p

/-- `provider.metadata(path)`: a non-404 failure if one is injected for the
path, otherwise the stored object, otherwise a `MetadataError` with code
404. -/
def Backend.metadataOp (b : Backend) (p : String) : Except Nat (List Byte) :=
  match lookupStr b.metaFailures p with
  | some code => .error code
  | none =>
    match b.find p with
    | some c => .ok c
    | none => .error 404

/-- `provider.delete(path)`: remove the object stored at `path`. -/
def Backend.deleteOp (b : Backend) (p : String) : Backend :=
  { b with objects := removeKey b.objects p }

/-- `provider.move(provider, src, dst)`: relocate the object at `src` to
`dst` (overwriting `dst`), returning the moved object's metadata. -/
def Backend.moveOp (b : Backend) (src dst : String) :
    Backend × Option (List Byte) :=
  match b.find src with
  | none => (b, none)
  | some c =>
    ({ b with objects := (dst, c) :: removeKey (removeKey b.objects src) dst },
     some c)

/-- The tail of `OSFStorageProvider._send_to_storage_provider`
(provider.py:573-580), entered once the pending upload has completed and the
final content-addressed name (`complete`) has been resolved from the sha256
accumulator:

    try:
        metadata = await provider.metadata(remote_complete_path)
    except exceptions.MetadataError as e:
        if e.code != 404:
            raise
        metadata, _ = await provider.move(provider, remote_pending_path,
                                          remote_complete_path)
    else:
        await provider.delete(remote_pending_path)

The result pairs the backend state after the branch with either the resolved
metadata or the propagated error code. -/
def sendToStorageFinalize (b : Backend) (pending complete : String) :
    Backend × Except Nat (List Byte) :=
  match b.metadataOp complete with
  | .ok m => (b.deleteOp pending, .ok m)
  | .error code =>
    if code ≠ 404 then
      (b, .error code)
    else
      match b.moveOp pending complete with
      | (b', some m) => (b', .ok m)
      | (b', none) => (b', .error 404)

/-! ## Move/copy decision flow of OSFStorageProvider
(provider.py:334-396 for `move`, 398-462 for `copy`)

`handle_naming`, `shares_storage_root` and `can_intra_move`/`can_intra_copy`
live in `waterbutler.core.provider`, outside the sources; the model takes
their outcomes as inputs, with `destPathMaterialized` the destination path
after naming/conflict resolution.  The model records, in order, which
storage-backend operations the chosen branch performs. -/

structure MoveContext where
  destIsOsfstorage : Bool
  sharesStorageRoot : Bool
  srcMaterialized : String
  destMaterialized : String
  canIntra : Bool
  srcIsDir : Bool
deriving DecidableEq

inductive BackendCall where
  | genericRelocation
  | intraRelocation
  | folderRecursion
  | download
  | sendToStorage
  | deleteSource
deriving DecidableEq

inductive MoveResult where
  | raisedOverwriteSelf
  | completed
deriving DecidableEq

/-- `OSFStorageProvider.move` after naming resolution (provider.py:348-396):
non-osfstorage destinations delegate to the generic move; then the
self-overwrite guard (lines 372-377) raises `OverwriteSelfError` when the
providers share a storage root and the materialized paths coincide; then
same-region moves run `intra_move`; folders recurse and delete the source;
files download, send to the destination's storage provider, and
`intra_move`. -/
def osfMoveTail (ctx : MoveContext) : List BackendCall × MoveResult :=
  if ctx.destIsOsfstorage = false then
    ([.genericRelocation], .completed)
  else if ctx.sharesStorageRoot && (ctx.srcMaterialized == ctx.destMaterialized) then
    ([], .raisedOverwriteSelf)
  else if ctx.canIntra then
    ([.intraRelocation], .completed)
  else if ctx.srcIsDir then
    ([.folderRecursion, .deleteSource], .completed)
  else
    ([.download, .sendToStorage, .intraRelocation], .completed)

/-- `OSFStorageProvider.copy` after naming resolution (provider.py:415-462):
same shape as `move`, except folders recurse without deleting the source. -/
def osfCopyTail (ctx : MoveContext) : List BackendCall × MoveResult :=
  if ctx.destIsOsfstorage = false then
    ([.genericRelocation], .completed)
  else if ctx.sharesStorageRoot && (ctx.srcMaterialized == ctx.destMaterialized) then
    ([], .raisedOverwriteSelf)
  else if ctx.canIntra then
    ([.intraRelocation], .completed)
  else if ctx.srcIsDir then
    ([.folderRecursion], .completed)
  else
    ([.download, .sendToStorage, .intraRelocation], .completed)

/-! ## Concrete instances used by the claim theorems -/

/-- The digest tee of the worked example (tests/core/stream_wrappers/test_digest.py):
a sha256 accumulator attached to a string stream over `"sleepy"`. -/
def c1digest : DigestStreamWrapper :=
  { readable := StringStreamWrapper.ofAscii "sleepy"
    writers := [("sha256", { written := [] })]
    atEof := false }

def c4cut : CutoffStream :=
  CutoffStream.make (StringStreamWrapper.ofAscii "sleepy") 3

/-- Extract the chunk of a cutoff read, empty on error. -/
def cutoffChunk (r : Except PyError (List Byte × CutoffStream)) : List Byte :=
  match r with
  | .ok p => p.1
  | .error _ => []

/-- Extract the post-state of a cutoff read, `d` on error. -/
def cutoffNext (r : Except PyError (List Byte × CutoffStream)) (d : CutoffStream) :
    CutoffStream :=
  match r with
  | .ok p => p.2
  | .error _ => d

def c5multi : MultiStreamWrapper :=
  MultiStreamWrapper.make [StringStreamWrapper.ofAscii "ab", StringStreamWrapper.ofAscii "cd"]

def c5st : MultiReadState := { s := c5multi, chunk := [] }

/-- The state of `c5multi.read 4`'s loop after two iterations: a fixed point
of the loop step with the guard still true. -/
def c5fix : MultiReadState := multiStep 4 (multiStep 4 c5st)

def c6b64 : Base64EncodeStream :=
  Base64EncodeStream.make (StringStreamWrapper.ofAscii "sleepy")

/-- Run one `read` of the base64 stream, keeping the state on error. -/
def b64readChunk (s : Base64EncodeStream) (n : Int) :
    List Byte × Base64EncodeStream :=
  match s.read n with
  | .ok p => p
  | .error _ => ([], s)

def c6s1 : List Byte × Base64EncodeStream := b64readChunk c6b64 3
def c6s2 : List Byte × Base64EncodeStream := b64readChunk c6s1.2 3
def c6s3 : List Byte × Base64EncodeStream := b64readChunk c6s2.2 3

def c7ctx : MoveContext :=
  { destIsOsfstorage := true
    sharesStorageRoot := true
    srcMaterialized := "/folder/file.txt"
    destMaterialized := "/folder/file.txt"
    canIntra := true
    srcIsDir := false }

def c8empty : MultiStreamWrapper := MultiStreamWrapper.make []

def c9multi : MultiStreamWrapper :=
  MultiStreamWrapper.make [StringStreamWrapper.ofAscii "ab"]

def c9st : MultiReadState := { s := c9multi, chunk := [] }

/-- The state of `c9multi.read (-1)`'s loop after one iteration: a fixed
point of the loop step with the guard still true. -/
def c9fix : MultiReadState := multiStep (-1) c9st

def c3bFinalize : Backend := { objects := [("pend", [1, 2])], metaFailures := [] }

def c3bDedup : Backend :=
  { objects := [("pend", [1, 2]), ("abc", [9])], metaFailures := [] }

def c3bFail : Backend :=
  { objects := [("pend", [1, 2])], metaFailures := [("abc", 500)] }

/-! ## Association-list lemmas for the backend model -/

theorem lookupStr_removeKey_self {α : Type} (l : List (String × α)) (p : String) :
    lookupStr (removeKey l p) p = none := by
  induction l with
  | nil => rfl
  | cons kv rest ih =>
    obtain ⟨k, v⟩ := kv
    by_cases h : k = p
    · simpa [removeKey, h] using ih
    · simpa [removeKey, lookupStr, h] using ih

theorem lookupStr_removeKey_other {α : Type} (l : List (String × α)) (p q : String)
    (hq : q ≠ p) : lookupStr (removeKey l p) q = lookupStr l q := by
  induction l with
  | nil => rfl
  | cons kv rest ih =>
    obtain ⟨k, v⟩ := kv
    by_cases h : k = p
    · subst h
      simp [removeKey, lookupStr, ih, Ne.symm hq]
    · by_cases h2 : k = q
      · simp [removeKey, lookupStr, h, h2, hq]
      · simp [removeKey, lookupStr, h, h2, ih]

/-! ## Claim theorems -/

/-- C1.  The claim says the digest tee is chunk-boundary independent, and in
particular that streaming "sleepy" as 3 bytes then the remainder yields the
same final sha256 digest as one read of all 6 bytes.  On the code this fails:
`DigestStreamWrapper.read` raises `AttributeError` on every call (it reads the
wrapped stream through `super()._readable`), so no bytes ever reach the
accumulators; and even at the byte level, the wrapped string stream's reads of
3 then the remainder produce `b"sl" + b"epy" = b"slepy"`, not `b"sleepy"`, so
the bytes the tee would forward to the accumulators differ from the whole
content.  This contradicts `tests/core/stream_wrappers/test_digest.py`. -/
theorem c1_digest_tee_broken :
    DigestStreamWrapper.read c1digest 3 = .error .attributeError ∧
    ((StringStreamWrapper.ofAscii "sleepy").read 3).1 ++
        (((StringStreamWrapper.ofAscii "sleepy").read 3).2.read (-1)).1 =
      asciiBytes "slepy" ∧
    asciiBytes "slepy" ≠ asciiBytes "sleepy" := by
  decide

/-- C2.  The claim says `read(n)` on an in-memory string stream returns
exactly the next `n` bytes; on the stream over `"sleepy"`, `read(3)` should
return `b"sle"`.  The code slices `self._data[0:n - 1]` but advances the
buffer by `n`, so `read(3)` returns `b"sl"`, silently discards `b"e"`, and
leaves `b"epy"` — contradicting the test and the intended contract named in
the spec's §9. -/
theorem c2_string_read_drops_byte :
    ((StringStreamWrapper.ofAscii "sleepy").read 3).1 = asciiBytes "sl" ∧
    ((StringStreamWrapper.ofAscii "sleepy").read 3).2.data = asciiBytes "epy" ∧
    asciiBytes "sl" ≠ asciiBytes "sle" := by
  decide

/-- C3.  The dedup/finalize branch of the commit protocol
(`_send_to_storage_provider`, provider.py:573-580): once the pending upload
is stored and the content-addressed name resolved, (a) a successful metadata
lookup at the content-addressed path deletes the pending object and the
pre-existing object becomes the result, (b) a 404 lookup failure moves the
pending object to the content-addressed path, and (c) any other lookup
failure propagates with the backend state untouched — the pending object is
neither moved nor deleted. -/
theorem c3_commit_dedup_finalize_branches
    (b : Backend) (pending complete : String) (blob : List Byte)
    (hp : b.find pending = some blob) (hne : pending ≠ complete) :
    (∀ m, b.metadataOp complete = .ok m →
        sendToStorageFinalize b pending complete = (b.deleteOp pending, .ok m) ∧
        (b.deleteOp pending).find pending = none ∧
        (b.deleteOp pending).find complete = b.find complete) ∧
    (b.metadataOp complete = .error 404 →
        (sendToStorageFinalize b pending complete).1.find complete = some blob ∧
        (sendToStorageFinalize b pending complete).1.find pending = none ∧
        (sendToStorageFinalize b pending complete).2 = .ok blob) ∧
    (∀ code, code ≠ 404 → b.metadataOp complete = .error code →
        sendToStorageFinalize b pending complete = (b, .error code)) := by
  refine ⟨?dedup, ?finalize, ?propagate⟩
  case dedup =>
    intro m hm
    refine ⟨by simp [sendToStorageFinalize, hm], ?_, ?_⟩
    · simpa [Backend.deleteOp, Backend.find] using
        lookupStr_removeKey_self b.objects pending
    · simpa [Backend.deleteOp, Backend.find] using
        lookupStr_removeKey_other b.objects pending complete (Ne.symm hne)
  case finalize =>
    intro hm
    have hmv : b.moveOp pending complete =
        ({ b with objects :=
            (complete, blob) :: removeKey (removeKey b.objects pending) complete },
         some blob) := by
      simp [Backend.moveOp, Backend.find] at hp ⊢
      simp [hp]
    refine ⟨?_, ?_, ?_⟩
    · simp [sendToStorageFinalize, hm, hmv, Backend.find, lookupStr]
    · simp [sendToStorageFinalize, hm, hmv, Backend.find, lookupStr, Ne.symm hne,
        lookupStr_removeKey_other (removeKey b.objects pending) complete pending hne,
        lookupStr_removeKey_self b.objects pending]
    · simp [sendToStorageFinalize, hm, hmv]
  case propagate =>
    intro code hcode hm
    simp [sendToStorageFinalize, hm, hcode]

/-- Witness for C3: all three branches at concrete backends — finalize at a
store holding only the pending object, dedup at a store that already has the
content-addressed object, propagation at a store whose lookup fails with
code 500. -/
theorem c3_commit_dedup_finalize_branches_witness :
    ((sendToStorageFinalize c3bFinalize "pend" "abc").1.find "abc" = some [1, 2] ∧
     (sendToStorageFinalize c3bFinalize "pend" "abc").1.find "pend" = none ∧
     (sendToStorageFinalize c3bFinalize "pend" "abc").2 = .ok [1, 2]) ∧
    (sendToStorageFinalize c3bDedup "pend" "abc" =
      (c3bDedup.deleteOp "pend", .ok [9])) ∧
    (sendToStorageFinalize c3bFail "pend" "abc" = (c3bFail, .error 500)) := by
  refine ⟨?_, ?_, ?_⟩
  · exact (c3_commit_dedup_finalize_branches c3bFinalize "pend" "abc" [1, 2]
      (by decide) (by decide)).2.1 (by decide)
  · exact ((c3_commit_dedup_finalize_branches c3bDedup "pend" "abc" [1, 2]
      (by decide) (by decide)).1 [9] (by decide)).1
  · exact (c3_commit_dedup_finalize_branches c3bFail "pend" "abc" [1, 2]
      (by decide) (by decide)).2.2 500 (by decide) (by decide)

/-- C4, counterexample.  The claim says a CutoffStream with cutoff `C` never
yields more than `C` cumulative bytes across its whole lifetime, including
`read(-1)` calls.  On the code, `read(-1)` delegates `_readable.read(cutoff)`
without updating `_thus_far`: with cutoff 3 over "sleepy", two `read(-1)`
calls yield `b"sl"` then `b"ep"` — 4 cumulative bytes, more than the cutoff
3. -/
theorem c4_cutoff_counterexample :
    cutoffChunk (c4cut.read (-1)) = asciiBytes "sl" ∧
    cutoffChunk ((cutoffNext (c4cut.read (-1)) c4cut).read (-1)) = asciiBytes "ep" ∧
    (cutoffChunk (c4cut.read (-1))).length +
        (cutoffChunk ((cutoffNext (c4cut.read (-1)) c4cut).read (-1))).length = 4 ∧
    c4cut.cutoff = 3 := by
  decide

/-- C4, amended.  What the code does: `size() == min(C, wrapped.size)` holds;
every `read(n)` with `n >= 0` raises `AttributeError` (the loop guard reads
the nonexistent attribute `self.stream`); and `read(-1)` returns whatever the
wrapped stream returns for a request of `cutoff` bytes while leaving
`_thus_far` unchanged, so the cumulative bound does not hold across repeated
`read(-1)` calls. -/
theorem c4_cutoff_size_and_read_behaviour :
    ∀ (r : StringStreamWrapper) (c : Int),
      (CutoffStream.make r c).sizeAttr = min c (r.sizeAttr : Int) ∧
      (∀ n : Int, 0 ≤ n → (CutoffStream.make r c).read n = .error .attributeError) ∧
      (∀ s : CutoffStream,
        (s.read (-1)).map (fun p => p.1) = .ok (s.readable.read s.cutoff).1 ∧
        (s.read (-1)).map (fun p => p.2.thusFar) = .ok s.thusFar) := by
  intro r c
  refine ⟨rfl, ?_, ?_⟩
  · intro n hn
    simp [CutoffStream.read, not_lt.mpr hn]
  · intro s
    constructor <;> simp [CutoffStream.read, Except.map]

/-- Witness for C4's amended theorem at `r = "ab"`, `c = 5`, `n = 2`,
`s = c4cut`. -/
theorem c4_cutoff_size_and_read_behaviour_witness :
    (CutoffStream.make (StringStreamWrapper.ofAscii "ab") 5).sizeAttr =
      min 5 (((StringStreamWrapper.ofAscii "ab").sizeAttr : Nat) : Int) ∧
    (CutoffStream.make (StringStreamWrapper.ofAscii "ab") 5).read 2 =
      .error .attributeError ∧
    (c4cut.read (-1)).map (fun p => p.1) =
      .ok (c4cut.readable.read c4cut.cutoff).1 := by
  refine ⟨?_, ?_, ?_⟩
  · exact (c4_cutoff_size_and_read_behaviour (StringStreamWrapper.ofAscii "ab") 5).1
  · exact (c4_cutoff_size_and_read_behaviour (StringStreamWrapper.ofAscii "ab") 5).2.1
      2 (by decide)
  · exact ((c4_cutoff_size_and_read_behaviour (StringStreamWrapper.ofAscii "ab") 5).2.2
      c4cut).1

/-- C5, counterexample.  The claim says the bytes a ConcatStream returns are
the members' contents with nothing dropped or duplicated.  Over the members
`"ab"`, `"cd"` (total size 4), `read(4)` never returns at all: after two loop
iterations the loop state is a fixed point of the guarded step with the guard
still true (the exhausted second member stays current because `_cycle` only
`pass`es on `IndexError`), and the bytes accumulated inside the stuck call
are `b"abc"` — the byte `b"d"` has been dropped by the members' `n-1`
slicing. -/
theorem c5_concat_counterexample :
    MultiStreamWrapper.read 40 c5multi 4 = none ∧
    multiStep 4 c5fix = c5fix ∧
    multiLoopCond c5fix 4 = true ∧
    c5fix.chunk = asciiBytes "abc" ∧
    asciiBytes "abc" ≠ asciiBytes "ab" ++ asciiBytes "cd" := by
  decide

/-- C5, amended.  What holds on the code: `size()` is the sum of the member
sizes, and a single `read(n)` call does advance to the next member and
continue filling the same call's chunk when the current member reports eof
(after one iteration of `c5multi.read 4` the chunk is `b"ab"` and the second
member has become current; after two it is `b"abc"`).  But each string
sub-read returns one byte short of the request, so bytes are dropped, and a
positive `read(n)` that cannot accumulate `n` bytes never returns. -/
theorem c5_concat_size_and_boundary_crossing :
    (∀ a b c : StringStreamWrapper,
      (MultiStreamWrapper.make [a, b, c]).sizeAttr =
        a.sizeAttr + b.sizeAttr + c.sizeAttr) ∧
    (multiStep 4 c5st).chunk = asciiBytes "ab" ∧
    (multiStep 4 c5st).s.current = some (StringStreamWrapper.ofAscii "cd") ∧
    (multiStep 4 (multiStep 4 c5st)).chunk = asciiBytes "abc" := by
  refine ⟨?_, by decide, by decide, by decide⟩
  intro a b c
  simp [MultiStreamWrapper.make, MultiStreamWrapper.cycle]
  omega

/-- C6.  The claim says base64 output is chunking-independent, with
`b"sleepy"` encoding to `"c2xlZXB5"` in one pass as well as chunked.  On the
code, the one-pass `read(8)` does produce `"c2xlZXB5"` (a request of 9 bytes
returns the whole 6-byte buffer), but reading in chunks of 3 until exhaustion
produces `"c2w" + "=ZX" + "A=" = "c2w=ZXA="`: the wrapped string stream
returns 2 bytes for each 3-byte request, so the encoder encodes short,
non-aligned groups with interior padding.  The concatenated chunked output
differs from the one-pass encoding. -/
theorem c6_base64_chunking_dependent :
    (c6b64.read 8).map (fun p => p.1) = .ok (asciiBytes "c2xlZXB5") ∧
    c6s1.1 ++ c6s2.1 ++ c6s3.1 = asciiBytes "c2w=ZXA=" ∧
    c6s3.2.atEof = true ∧
    asciiBytes "c2w=ZXA=" ≠ asciiBytes "c2xlZXB5" := by
  decide

/-- C7.  For a move or copy between osfstorage providers (the destination's
NAME is `osfstorage`), when source and destination resolve to the identical
logical path — they share a storage root and have equal materialized paths
after naming resolution — both `move` and `copy` raise `OverwriteSelfError`
having performed no storage-backend call: the decision trace is empty. -/
theorem c7_overwrite_self_guard (ctx : MoveContext)
    (hosf : ctx.destIsOsfstorage = true)
    (hroot : ctx.sharesStorageRoot = true)
    (hpath : ctx.srcMaterialized = ctx.destMaterialized) :
    osfMoveTail ctx = ([], .raisedOverwriteSelf) ∧
    osfCopyTail ctx = ([], .raisedOverwriteSelf) := by
  constructor <;> simp [osfMoveTail, osfCopyTail, hosf, hroot, hpath]

/-- Witness for C7 at a concrete context: both providers osfstorage, shared
storage root, identical materialized path `/folder/file.txt`. -/
theorem c7_overwrite_self_guard_witness :
    osfMoveTail c7ctx = ([], .raisedOverwriteSelf) ∧
    osfCopyTail c7ctx = ([], .raisedOverwriteSelf) :=
  c7_overwrite_self_guard c7ctx rfl rfl rfl

/-- C8, counterexample.  The claim says a ConcatStream over an empty member
list has `atEof` true from construction.  On the code the inherited `_at_eof`
flag is initialized `False` and no method of `MultiStreamWrapper` ever sets
it, so `at_eof()` is `False` from construction (while the size is 0). -/
theorem c8_empty_concat_counterexample :
    c8empty.atEof = false ∧ c8empty.sizeAttr = 0 := by
  decide

/-- C8, amended.  What holds on the code: for the leaf wrappers the eof flag
is an idempotent terminal state — a string stream at eof (its buffer empty)
returns an empty chunk on every further read and stays at eof, and likewise
the empty stream — and a ConcatStream over an empty member list has size 0
and every `read` returns an empty result immediately; but its `at_eof()`
remains `False` from construction rather than `True`. -/
theorem c8_eof_terminal_amended :
    (∀ (s : StringStreamWrapper) (n : Int), s.atEof = true → s.data = [] →
        (s.read n).1 = [] ∧ (s.read n).2.atEof = true) ∧
    (∀ (e : EmptyStreamWrapper) (n : Int), e.atEof = true →
        (e.read n).1 = [] ∧ (e.read n).2.atEof = true) ∧
    (c8empty.sizeAttr = 0 ∧ c8empty.atEof = false ∧
      ∀ n : Int, MultiStreamWrapper.read 1 c8empty n = some ([], c8empty)) := by
  refine ⟨?_, ?_, rfl, rfl, ?_⟩
  · intro s n heof hdata
    simp [StringStreamWrapper.read, pySliceTo, pySliceFrom, hdata, heof]
  · intro e n heof
    simp [EmptyStreamWrapper.read]
  · intro n
    simp [MultiStreamWrapper.read, multiReadLoop, multiLoopCond, c8empty,
      MultiStreamWrapper.make, MultiStreamWrapper.cycle]

/-- Witness for C8's amended theorem: a drained string stream at eof, the
empty stream at eof, and a read on the empty-member ConcatStream. -/
theorem c8_eof_terminal_amended_witness :
    (((⟨[], 6, true⟩ : StringStreamWrapper).read 3).1 = [] ∧
      ((⟨[], 6, true⟩ : StringStreamWrapper).read 3).2.atEof = true) ∧
    (((⟨true⟩ : EmptyStreamWrapper).read (-1)).1 = [] ∧
      ((⟨true⟩ : EmptyStreamWrapper).read (-1)).2.atEof = true) ∧
    MultiStreamWrapper.read 1 c8empty 7 = some ([], c8empty) := by
  refine ⟨?_, ?_, ?_⟩
  · exact c8_eof_terminal_amended.1 ⟨[], 6, true⟩ 3 rfl rfl
  · exact c8_eof_terminal_amended.2.1 ⟨true⟩ (-1) rfl
  · exact c8_eof_terminal_amended.2.2.2.2 7

/-- C9.  The claim says every ConcatStream read terminates, with `read(-1)`
draining every member and then returning.  On the code, once the last member
is exhausted `_cycle` leaves it current (it only `pass`es on `IndexError`),
so the loop guard `self._current_readable and (... or n == -1)` stays true
forever: over the single member `"ab"`, `read(-1)` reaches, after one
iteration, a fixed point of the guarded loop step with the guard still true,
and the fuel-indexed run returns `none` — the call never returns. -/
theorem c9_multi_read_never_returns :
    MultiStreamWrapper.read 40 c9multi (-1) = none ∧
    multiStep (-1) c9fix = c9fix ∧
    multiLoopCond c9fix (-1) = true := by
  decide

/-- C10.  The claim describes `RequestStreamReader`: at inner eof, `read`
returns `b''` without touching the inner reader, and a fixed-size read that
hits `IncompleteReadError` returns the partial bytes.  The
`stream_wrappers.py` version raises `NameError` on every call (the module
never defines `logger`), so neither behaviour is reachable there; the
original `_read` in `streams/http.py` (where `logger` exists and
`readexactly` is used) exhibits exactly the claimed behaviour. -/
theorem c10_request_reader_behaviour :
    RequestStreamReader.read { innerAtEof := true } 5 = .error .nameError ∧
    httpRequestRead
        { atEofFlag := true, readBytes := [1, 2], readexactlyRes := .full [1, 2] } 5 =
      ([], false) ∧
    httpRequestRead
        { atEofFlag := false, readBytes := [], readexactlyRes := .incomplete [7, 8] } 4 =
      ([7, 8], true) := by
  decide

end Waterbutler
